/-
Verification of the hash-lookup-table algorithm module
(Chapter 16 / Lookup / algorithms.py).

Bytes are modelled as `List Nat` (each element a byte value < 256).
Textual (hex-string) outputs of the password-hash primitives are modelled
as `List Nat` of character codes.  External digest primitives (hashlib /
passlib / whirlpool) are parameters of the adapter definitions, except
MD5 which is implemented concretely (RFC 1321) because concrete digest
values are checked.
-/
import Mathlib

namespace Lookup

/-- Character code of the lowercase hex digit for a value v < 16
(binascii.hexlify emits lowercase hex). -/
def hexDigit (v : Nat) : Nat :=
  if v < 10 then 48 + v else 87 + v

/-- Numeric value of a hex-digit character code (0-9, a-f, A-F);
other codes never occur in the hex strings this module consumes. -/
def hexDigitVal (c : Nat) : Nat :=
  if 48 ≤ c ∧ c ≤ 57 then c - 48
  else if 97 ≤ c ∧ c ≤ 102 then c - 87
  else if 65 ≤ c ∧ c ≤ 70 then c - 55
  else 0

/-- Model of binascii.hexlify: two lowercase hex character codes per byte. -/
def hexlify : List Nat → List Nat
  | [] => []
  | b :: t => hexDigit (b / 16 % 16) :: hexDigit (b % 16) :: hexlify t

/-- Model of binascii.unhexlify: pair up hex character codes into bytes. -/
def unhexlify : List Nat → List Nat
  | a :: b :: t => (hexDigitVal a * 16 + hexDigitVal b) :: unhexlify t
  | _ => []

theorem hexlify_length (bs : List Nat) : (hexlify bs).length = 2 * bs.length := by
  induction bs with
  | nil => rfl
  | cons b t ih => simp [hexlify, ih]; omega

theorem unhexlify_length : ∀ h : List Nat, (unhexlify h).length = h.length / 2
  | [] => rfl
  | [_] => by simp [unhexlify]
  | _ :: _ :: t => by
      simp [unhexlify, unhexlify_length t]
      omega

/-- UTF-8 encoding of one Unicode code point. -/
def utf8Char (c : Nat) : List Nat :=
  if c < 0x80 then [c]
  else if c < 0x800 then [0xc0 + c / 64, 0x80 + c % 64]
  else if c < 0x10000 then [0xe0 + c / 4096, 0x80 + c / 64 % 64, 0x80 + c % 64]
  else [0xf0 + c / 262144, 0x80 + c / 4096 % 64, 0x80 + c / 64 % 64, 0x80 + c % 64]

/-- Model of Python str.encode(): UTF-8 bytes of the string. -/
def pyEncode (s : String) : List Nat :=
  s.data.flatMap (fun c => utf8Char c.toNat)

/-- A Python value supplied as candidate data: text, raw bytes, or
anything else. -/
inductive PyValue where
  | str (s : String)
  | bytes (b : List Nat)
  | other
deriving Repr

/-- The errors the module raises while handling candidate data. -/
inductive PyError where
  | typeError
deriving Repr, DecidableEq

/-- Model of the BaseAlgorithm.data setter: text is encoded to bytes,
bytes pass through, anything else raises TypeError. -/
def BaseAlgorithm.setData : PyValue → Except PyError (List Nat)
  | .str s => .ok (pyEncode s)
  | .bytes b => .ok b
  | .other => .error .typeError

/-- Model of BaseAlgorithm.update: coerce exactly like the setter, then
append to the stored data. -/
def BaseAlgorithm.update (d : List Nat) : PyValue → Except PyError (List Nat)
  | .str s => .ok (d ++ pyEncode s)
  | .bytes b => .ok (d ++ b)
  | .other => .error .typeError

/-- Model of BaseAlgorithm.init: with no argument the data is set
to the empty byte string, otherwise through the data setter. -/
def BaseAlgorithm.init : Option PyValue → Except PyError (List Nat)
  | none => BaseAlgorithm.setData (.bytes [])
  | some v => BaseAlgorithm.setData v

/-- Model of BaseAlgorithm.hexdigest: hexlify of the digest, for a given
concrete digest function. -/
def BaseAlgorithm.hexdigest (dig : List Nat → List Nat) (data : List Nat) : List Nat :=
  hexlify (dig data)

/-- Setting the data and then computing a digest: an input rejected by the
setter produces the error and never reaches the digest function. -/
def BaseAlgorithm.runDigest (dig : List Nat → List Nat) (v : PyValue) :
    Except PyError (List Nat) :=
  (BaseAlgorithm.init (some v)).map dig

/-- Sine-derived round constants of MD5 (RFC 1321). -/
def md5K : List Nat :=
  [0xd76aa478, 0xe8c7b756, 0x242070db, 0xc1bdceee,
   0xf57c0faf, 0x4787c62a, 0xa8304613, 0xfd469501,
   0x698098d8, 0x8b44f7af, 0xffff5bb1, 0x895cd7be,
   0x6b901122, 0xfd987193, 0xa679438e, 0x49b40821,
   0xf61e2562, 0xc040b340, 0x265e5a51, 0xe9b6c7aa,
   0xd62f105d, 0x02441453, 0xd8a1e681, 0xe7d3fbc8,
   0x21e1cde6, 0xc33707d6, 0xf4d50d87, 0x455a14ed,
   0xa9e3e905, 0xfcefa3f8, 0x676f02d9, 0x8d2a4c8a,
   0xfffa3942, 0x8771f681, 0x6d9d6122, 0xfde5380c,
   0xa4beea44, 0x4bdecfa9, 0xf6bb4b60, 0xbebfbc70,
   0x289b7ec6, 0xeaa127fa, 0xd4ef3085, 0x04881d05,
   0xd9d4d039, 0xe6db99e5, 0x1fa27cf8, 0xc4ac5665,
   0xf4292244, 0x432aff97, 0xab9423a7, 0xfc93a039,
   0x655b59c3, 0x8f0ccc92, 0xffeff47d, 0x85845dd1,
   0x6fa87e4f, 0xfe2ce6e0, 0xa3014314, 0x4e0811a1,
   0xf7537e82, 0xbd3af235, 0x2ad7d2bb, 0xeb86d391]

/-- Per-round left-rotation amounts of MD5 (RFC 1321). -/
def md5S : List Nat :=
  [7, 12, 17, 22, 7, 12, 17, 22, 7, 12, 17, 22, 7, 12, 17, 22,
   5, 9, 14, 20, 5, 9, 14, 20, 5, 9, 14, 20, 5, 9, 14, 20,
   4, 11, 16, 23, 4, 11, 16, 23, 4, 11, 16, 23, 4, 11, 16, 23,
   6, 10, 15, 21, 6, 10, 15, 21, 6, 10, 15, 21, 6, 10, 15, 21]

/-- Left rotation of a 32-bit word. -/
def rotl32 (x s : Nat) : Nat :=
  ((x <<< s) ||| (x >>> (32 - s))) % 2 ^ 32

/-- Little-endian bytes of a number, fixed width n. -/
def leBytes : Nat → Nat → List Nat
  | 0, _ => []
  | n + 1, x => (x % 256) :: leBytes n (x / 256)

theorem leBytes_length : ∀ n x, (leBytes n x).length = n
  | 0, _ => rfl
  | n + 1, x => by simp [leBytes, leBytes_length n]

/-- A 64-byte block as 16 little-endian 32-bit words. -/
def md5Words : List Nat → List Nat
  | b0 :: b1 :: b2 :: b3 :: t => (b0 + 256 * (b1 + 256 * (b2 + 256 * b3))) :: md5Words t
  | _ => []

/-- The nonlinear function of MD5 round i. -/
def md5F (i b c d : Nat) : Nat :=
  if i < 16 then (b &&& c) ||| ((b ^^^ 0xffffffff) &&& d)
  else if i < 32 then (d &&& b) ||| ((d ^^^ 0xffffffff) &&& c)
  else if i < 48 then b ^^^ c ^^^ d
  else c ^^^ (b ||| (d ^^^ 0xffffffff))

/-- The message-word index of MD5 round i. -/
def md5G (i : Nat) : Nat :=
  if i < 16 then i
  else if i < 32 then (5 * i + 1) % 16
  else if i < 48 then (3 * i + 5) % 16
  else (7 * i) % 16

/-- One MD5 round on state (a, b, c, d). -/
def md5Step (M : List Nat) (st : Nat × Nat × Nat × Nat) (i : Nat) : Nat × Nat × Nat × Nat :=
  let f := (md5F i st.2.1 st.2.2.1 st.2.2.2 + st.1 + md5K.getD i 0 + M.getD (md5G i) 0) % 2 ^ 32
  (st.2.2.2, (st.2.1 + rotl32 f (md5S.getD i 0)) % 2 ^ 32, st.2.1, st.2.2.1)

/-- One 64-byte MD5 block: 64 rounds then the feed-forward addition. -/
def md5Block (M : List Nat) (st : Nat × Nat × Nat × Nat) : Nat × Nat × Nat × Nat :=
  let fin := (List.range 64).foldl (md5Step M) st
  ((st.1 + fin.1) % 2 ^ 32, (st.2.1 + fin.2.1) % 2 ^ 32,
   (st.2.2.1 + fin.2.2.1) % 2 ^ 32, (st.2.2.2 + fin.2.2.2) % 2 ^ 32)

/-- Fold the MD5 compression over n 64-byte blocks. -/
def md5Blocks : Nat → List Nat → (Nat × Nat × Nat × Nat) → Nat × Nat × Nat × Nat
  | 0, _, st => st
  | n + 1, bs, st => md5Blocks n (bs.drop 64) (md5Block (md5Words (bs.take 64)) st)

/-- MD5 padding: 0x80, zeros to 56 mod 64, then the bit length as
64-bit little-endian. -/
def md5Pad (m : List Nat) : List Nat :=
  m ++ 0x80 :: List.replicate ((119 - m.length % 64) % 64) 0
    ++ leBytes 8 (m.length * 8 % 2 ^ 64)

/-- Model of hashlib.md5(data).digest(): the 16 MD5 digest bytes
(RFC 1321). -/
def hashlib_md5 (m : List Nat) : List Nat :=
  let p := md5Pad m
  let st := md5Blocks (p.length / 64) p (0x67452301, 0xefcdab89, 0x98badcfe, 0x10325476)
  leBytes 4 st.1 ++ leBytes 4 st.2.1 ++ leBytes 4 st.2.2.1 ++ leBytes 4 st.2.2.2

theorem hashlib_md5_length (m : List Nat) : (hashlib_md5 m).length = 16 := by
  simp [hashlib_md5, leBytes_length]

/-- Model of Md4.digest: hashlib md4 of the stored data, with the
primitive as a parameter. -/
def Md4.digest (md4 : List Nat → List Nat) (data : List Nat) : List Nat :=
  md4 data

/-- Model of Md5.digest: hashlib.md5 of the stored data. -/
def Md5.digest (data : List Nat) : List Nat :=
  hashlib_md5 data

/-- Model of Sha1.digest, primitive as parameter. -/
def Sha1.digest (sha1 : List Nat → List Nat) (data : List Nat) : List Nat :=
  sha1 data

/-- Model of Sha224.digest, primitive as parameter. -/
def Sha224.digest (sha224 : List Nat → List Nat) (data : List Nat) : List Nat :=
  sha224 data

/-- Model of Sha256.digest, primitive as parameter. -/
def Sha256.digest (sha256 : List Nat → List Nat) (data : List Nat) : List Nat :=
  sha256 data

/-- Model of Sha384.digest, primitive as parameter. -/
def Sha384.digest (sha384 : List Nat → List Nat) (data : List Nat) : List Nat :=
  sha384 data

/-- Model of Sha512.digest, primitive as parameter. -/
def Sha512.digest (sha512 : List Nat → List Nat) (data : List Nat) : List Nat :=
  sha512 data

/-- Model of Ripemd160.digest, primitive as parameter. -/
def Ripemd160.digest (ripemd160 : List Nat → List Nat) (data : List Nat) : List Nat :=
  ripemd160 data

/-- Model of Sha3_224.digest, primitive as parameter. -/
def Sha3_224.digest (sha3x224 : List Nat → List Nat) (data : List Nat) : List Nat :=
  sha3x224 data

/-- Model of Sha3_256.digest, primitive as parameter. -/
def Sha3_256.digest (sha3x256 : List Nat → List Nat) (data : List Nat) : List Nat :=
  sha3x256 data

/-- Model of Sha3_384.digest, primitive as parameter. -/
def Sha3_384.digest (sha3x384 : List Nat → List Nat) (data : List Nat) : List Nat :=
  sha3x384 data

/-- Model of Sha3_512.digest, primitive as parameter. -/
def Sha3_512.digest (sha3x512 : List Nat → List Nat) (data : List Nat) : List Nat :=
  sha3x512 data

/-- Model of Lm.digest: unhexlify(lmhash.encrypt(self.data[:15])). -/
def Lm.digest (lmhash : List Nat → List Nat) (data : List Nat) : List Nat :=
  unhexlify (lmhash (data.take 15))

/-- Model of Ntlm.digest: unhexlify(nthash.encrypt(self.data[:127])). -/
def Ntlm.digest (nthash : List Nat → List Nat) (data : List Nat) : List Nat :=
  unhexlify (nthash (data.take 127))

/-- Model of MySql323.digest: unhexlify(mysql323.encrypt(self.data[:64])). -/
def MySql323.digest (mysql323 : List Nat → List Nat) (data : List Nat) : List Nat :=
  unhexlify (mysql323 (data.take 64))

/-- Model of MySql41.digest: unhexlify(mysql41.encrypt(self.data[:64])[1:]),
dropping the leading scheme-marker character. -/
def MySql41.digest (mysql41 : List Nat → List Nat) (data : List Nat) : List Nat :=
  unhexlify ((mysql41 (data.take 64)).drop 1)

/-- Model of Oracle10.digest: unhexlify(oracle10.encrypt(self.data[:64],
user=self.u)), with the username supplied by the subclass. -/
def Oracle10.digest (oracle10 : List Nat → String → List Nat) (user : String)
    (data : List Nat) : List Nat :=
  unhexlify (oracle10 (data.take 64) user)

/-- Model of Oracle10_Sys.digest: the Oracle10 digest with username SYS. -/
def Oracle10_Sys.digest (oracle10 : List Nat → String → List Nat) (data : List Nat) : List Nat :=
  Oracle10.digest oracle10 "SYS" data

/-- Model of Oracle10_System.digest: the Oracle10 digest with username SYSTEM. -/
def Oracle10_System.digest (oracle10 : List Nat → String → List Nat) (data : List Nat) : List Nat :=
  Oracle10.digest oracle10 "SYSTEM" data

/-- Model of PostgresMd5.digest: unhexlify(postgres_md5.encrypt(
self.data[:64], user=self.u)[3:]), dropping the md5 prefix. -/
def PostgresMd5.digest (postgres_md5 : List Nat → String → List Nat) (user : String)
    (data : List Nat) : List Nat :=
  unhexlify ((postgres_md5 (data.take 64) user).drop 3)

/-- Model of PostgresMd5_Root.digest: PostgresMd5 with username root. -/
def PostgresMd5_Root.digest (postgres_md5 : List Nat → String → List Nat)
    (data : List Nat) : List Nat :=
  PostgresMd5.digest postgres_md5 "root" data

/-- Model of PostgresMd5_Postgres.digest: PostgresMd5 with username postgres. -/
def PostgresMd5_Postgres.digest (postgres_md5 : List Nat → String → List Nat)
    (data : List Nat) : List Nat :=
  PostgresMd5.digest postgres_md5 "postgres" data

/-- Model of PostgresMd5_Admin.digest: PostgresMd5 with username admin. -/
def PostgresMd5_Admin.digest (postgres_md5 : List Nat → String → List Nat)
    (data : List Nat) : List Nat :=
  PostgresMd5.digest postgres_md5 "admin" data

/-- Model of Msdcc_Administrator.digest: unhexlify(msdcc.encrypt(
self.data[:64], user=administrator)). -/
def Msdcc_Administrator.digest (msdcc : List Nat → String → List Nat)
    (data : List Nat) : List Nat :=
  unhexlify (msdcc (data.take 64) "administrator")

/-- Model of Msdcc2_Administrator.digest: unhexlify(msdcc2.encrypt(
self.data[:64], user=administrator)). -/
def Msdcc2_Administrator.digest (msdcc2 : List Nat → String → List Nat)
    (data : List Nat) : List Nat :=
  unhexlify (msdcc2 (data.take 64) "administrator")

/-- Model of Whirlpool.digest, primitive as parameter. -/
def Whirlpool.digest (whirlpool : List Nat → List Nat) (data : List Nat) : List Nat :=
  whirlpool data

/-- The external digest primitives the module delegates to: the hashlib
family and whirlpool return raw digest bytes; the passlib encrypt
functions return hex character codes (for the salted ones, given the
data and a username). -/
structure Primitives where
  md4 : List Nat → List Nat
  sha1 : List Nat → List Nat
  sha224 : List Nat → List Nat
  sha256 : List Nat → List Nat
  sha384 : List Nat → List Nat
  sha512 : List Nat → List Nat
  sha3x224 : List Nat → List Nat
  sha3x256 : List Nat → List Nat
  sha3x384 : List Nat → List Nat
  sha3x512 : List Nat → List Nat
  ripemd160 : List Nat → List Nat
  whirlpool : List Nat → List Nat
  lmhash : List Nat → List Nat
  nthash : List Nat → List Nat
  mysql323 : List Nat → List Nat
  mysql41 : List Nat → List Nat
  oracle10 : List Nat → String → List Nat
  postgres_md5 : List Nat → String → List Nat
  msdcc : List Nat → String → List Nat
  msdcc2 : List Nat → String → List Nat

/-- The standard output shapes of the external primitives: raw digest
widths for the hashlib family, and textual hash lengths for the passlib
encrypt functions (mysql41 emits a marker plus 40 hex characters,
postgres_md5 emits md5 plus 32 hex characters). -/
structure PrimSpec (p : Primitives) : Prop where
  md4_len : ∀ x, (p.md4 x).length = 16
  sha1_len : ∀ x, (p.sha1 x).length = 20
  sha224_len : ∀ x, (p.sha224 x).length = 28
  sha256_len : ∀ x, (p.sha256 x).length = 32
  sha384_len : ∀ x, (p.sha384 x).length = 48
  sha512_len : ∀ x, (p.sha512 x).length = 64
  sha3x224_len : ∀ x, (p.sha3x224 x).length = 28
  sha3x256_len : ∀ x, (p.sha3x256 x).length = 32
  sha3x384_len : ∀ x, (p.sha3x384 x).length = 48
  sha3x512_len : ∀ x, (p.sha3x512 x).length = 64
  ripemd160_len : ∀ x, (p.ripemd160 x).length = 20
  whirlpool_len : ∀ x, (p.whirlpool x).length = 64
  lmhash_len : ∀ x, (p.lmhash x).length = 32
  nthash_len : ∀ x, (p.nthash x).length = 32
  mysql323_len : ∀ x, (p.mysql323 x).length = 16
  mysql41_len : ∀ x, (p.mysql41 x).length = 41
  oracle10_len : ∀ x u, (p.oracle10 x u).length = 16
  postgres_md5_len : ∀ x u, (p.postgres_md5 x u).length = 35
  msdcc_len : ∀ x u, (p.msdcc x u).length = 32
  msdcc2_len : ∀ x u, (p.msdcc2 x u).length = 32

/-- One registry entry: the class attributes key, name and hex_length
together with the digest operation. -/
structure AlgEntry where
  key : String
  name : String
  hex_length : Nat
  digest : List Nat → List Nat

/-- The unconditionally registered algorithms, in source order. -/
def baseAlgs (p : Primitives) : List AlgEntry :=
  [⟨"md4", "Message Digest 4", 32, Md4.digest p.md4⟩,
   ⟨"md5", "Message Digest 5", 32, Md5.digest⟩,
   ⟨"sha1", "Secure Hashing Algorithm 1", 40, Sha1.digest p.sha1⟩,
   ⟨"sha2-224", "Secure Hashing Algorithm 2 (224 bit)", 56, Sha224.digest p.sha224⟩,
   ⟨"sha2-256", "Secure Hashing Algorithm 2 (256 bit)", 64, Sha256.digest p.sha256⟩,
   ⟨"sha2-384", "Secure Hashing Algorithm 2 (384 bit)", 96, Sha384.digest p.sha384⟩,
   ⟨"sha2-512", "Secure Hashing Algorithm 2 (512 bit)", 128, Sha512.digest p.sha512⟩,
   ⟨"sha3-224", "Secure Hashing Algorithm 3 (224 bit)", 56, Sha3_224.digest p.sha3x224⟩,
   ⟨"sha3-256", "Secure Hashing Algorithm 3 (256 bit)", 64, Sha3_256.digest p.sha3x256⟩,
   ⟨"sha3-384", "Secure Hashing Algorithm 3 (384 bit)", 96, Sha3_384.digest p.sha3x384⟩,
   ⟨"sha3-512", "Secure Hashing Algorithm 3 (512 bit)", 128, Sha3_512.digest p.sha3x512⟩]

/-- The ripemd160 entry, registered only when hashlib provides it. -/
def ripemdEntry (p : Primitives) : AlgEntry :=
  ⟨"ripemd160", "RACE Integrity Primitives Evaluation Message Digest (160 bit)", 40,
   Ripemd160.digest p.ripemd160⟩

/-- The passlib-backed entries, registered only when passlib imports,
in source order. -/
def passlibAlgs (p : Primitives) : List AlgEntry :=
  [⟨"lm", "LM", 32, Lm.digest p.lmhash⟩,
   ⟨"ntlm", "NTLM", 32, Ntlm.digest p.nthash⟩,
   ⟨"mysql323", "MySQL v3.2.3", 16, MySql323.digest p.mysql323⟩,
   ⟨"mysql41", "MySQL v4.1", 40, MySql41.digest p.mysql41⟩,
   ⟨"oracle10g-sys", "Oracle 10g (SYS)", 16, Oracle10_Sys.digest p.oracle10⟩,
   ⟨"oracle10g-system", "Oracle 10g (SYSTEM)", 16, Oracle10_System.digest p.oracle10⟩,
   ⟨"msdcc-administrator", "MS Domain Cached Credentials", 32,
    Msdcc_Administrator.digest p.msdcc⟩,
   ⟨"msdcc2-administrator", "MS Domain Cached Credentials v2", 32,
    Msdcc2_Administrator.digest p.msdcc2⟩,
   ⟨"postgres_md5-admin", "Postgres MD5 (admin)", 32, PostgresMd5_Admin.digest p.postgres_md5⟩,
   ⟨"postgres_md5-postgres", "Postgres MD5 (postgres)", 32,
    PostgresMd5_Postgres.digest p.postgres_md5⟩,
   ⟨"postgres_md5-root", "Postgres MD5 (root)", 32, PostgresMd5_Root.digest p.postgres_md5⟩]

/-- The whirlpool entry, registered only when the whirlpool module imports. -/
def whirlpoolEntry (p : Primitives) : AlgEntry :=
  ⟨"whirlpool", "Whirlpool", 128, Whirlpool.digest p.whirlpool⟩

/-- Model of the module-level algorithms dict: the base catalog, then
ripemd160, the passlib family and whirlpool, each guarded by its
capability flag. -/
def algorithms (p : Primitives) (ripemdAvail passlibAvail whirlpoolAvail : Bool) :
    List AlgEntry :=
  baseAlgs p
    ++ (if ripemdAvail then [ripemdEntry p] else [])
    ++ (if passlibAvail then passlibAlgs p else [])
    ++ (if whirlpoolAvail then [whirlpoolEntry p] else [])

/-- The set of registered keys. -/
def availableKeys (p : Primitives) (ripemdAvail passlibAvail whirlpoolAvail : Bool) :
    List String :=
  (algorithms p ripemdAvail passlibAvail whirlpoolAvail).map (·.key)

/-- The error of looking up an unregistered key. -/
inductive LookupError where
  | UnknownAlgorithm
deriving Repr, DecidableEq

/-- Model of indexing the algorithms dict: the entry for the key, or
UnknownAlgorithm (a KeyError in the source) when absent. -/
def lookup (p : Primitives) (ripemdAvail passlibAvail whirlpoolAvail : Bool)
    (key : String) : Except LookupError AlgEntry :=
  match (algorithms p ripemdAvail passlibAvail whirlpoolAvail).find? (fun e => e.key == key) with
  | some e => .ok e
  | none => .error .UnknownAlgorithm

/-- Modelled from the spec: the Key Encoder of the lookup-table builder is
not part of this source file; the module docstring defines the stored key
as the first 64 bits of the hash, right-padded with zeroes if necessary. -/
def encodeKey (digest : List Nat) : List Nat :=
  if 8 ≤ digest.length then digest.take 8
  else digest ++ List.replicate (8 - digest.length) 0

/-- The error of encoding an offset too wide for 48 bits. -/
inductive OffsetError where
  | overflow
deriving Repr, DecidableEq

/-- Modelled from the spec: the Offset Encoder of the lookup-table builder
is not part of this source file; the module docstring defines the stored
offset as a 48-bit little-endian integer, and the spec rejects offsets of
48 bits or more with OffsetOverflow. -/
def encodeOffset (offset : Nat) : Except OffsetError (List Nat) :=
  if offset < 2 ^ 48 then .ok (leBytes 6 offset) else .error .overflow

/-- Concrete stand-ins for the external primitives, each returning a
constant output of the standard shape. -/
def testPrims : Primitives where
  md4 := fun _ => List.replicate 16 0
  sha1 := fun _ => List.replicate 20 0
  sha224 := fun _ => List.replicate 28 0
  sha256 := fun _ => List.replicate 32 0
  sha384 := fun _ => List.replicate 48 0
  sha512 := fun _ => List.replicate 64 0
  sha3x224 := fun _ => List.replicate 28 0
  sha3x256 := fun _ => List.replicate 32 0
  sha3x384 := fun _ => List.replicate 48 0
  sha3x512 := fun _ => List.replicate 64 0
  ripemd160 := fun _ => List.replicate 20 0
  whirlpool := fun _ => List.replicate 64 0
  lmhash := fun _ => List.replicate 32 48
  nthash := fun _ => List.replicate 32 48
  mysql323 := fun _ => List.replicate 16 48
  mysql41 := fun _ => List.replicate 41 48
  oracle10 := fun _ _ => List.replicate 16 48
  postgres_md5 := fun _ _ => List.replicate 35 48
  msdcc := fun _ _ => List.replicate 32 48
  msdcc2 := fun _ _ => List.replicate 32 48

theorem testPrimsSpec : PrimSpec testPrims := by
  constructor <;> intros <;> simp [testPrims]

/-- C1: for the ntlm algorithm the digest depends only on the first 127
bytes of the candidate: for every nthash primitive and every byte input,
the ntlm digest of the input equals the ntlm digest of the 127-byte prefix
of that input. -/
theorem ntlm_digest_take_127 (nthash : List Nat → List Nat) (data : List Nat) :
    Ntlm.digest nthash data = Ntlm.digest nthash (data.take 127) := by
  simp [Ntlm.digest, List.take_take]

/-- C2: setting or updating the candidate data with a text string encodes
it to bytes first, raw bytes pass through unchanged, and any other value
fails with the type error at once, so no digest is computed. -/
theorem data_coercion_and_type_error :
    (∀ s, BaseAlgorithm.setData (.str s) = .ok (pyEncode s)) ∧
    (∀ b, BaseAlgorithm.setData (.bytes b) = .ok b) ∧
    BaseAlgorithm.setData .other = .error .typeError ∧
    (∀ d s, BaseAlgorithm.update d (.str s) = .ok (d ++ pyEncode s)) ∧
    (∀ d b, BaseAlgorithm.update d (.bytes b) = .ok (d ++ b)) ∧
    (∀ d, BaseAlgorithm.update d .other = .error .typeError) ∧
    (∀ dig, BaseAlgorithm.runDigest dig .other = .error .typeError) :=
  ⟨fun _ => rfl, fun _ => rfl, rfl, fun _ _ => rfl, fun _ _ => rfl,
   fun _ => rfl, fun _ => rfl⟩

/-- C10: for every digest function, constructing with data a and then
updating with b yields the same stored data, hence the same digest, as
constructing with the concatenation of a and b; constructing with no
argument equals constructing with the empty byte string. -/
theorem init_then_update_eq_concat (a b : List Nat) (dig : List Nat → List Nat) :
    (BaseAlgorithm.init (some (.bytes a))).bind (fun st => BaseAlgorithm.update st (.bytes b))
      = BaseAlgorithm.init (some (.bytes (a ++ b))) ∧
    BaseAlgorithm.init none = BaseAlgorithm.init (some (.bytes [])) ∧
    ((BaseAlgorithm.init (some (.bytes a))).bind
        (fun st => BaseAlgorithm.update st (.bytes b))).map dig
      = (BaseAlgorithm.init (some (.bytes (a ++ b)))).map dig :=
  ⟨rfl, rfl, rfl⟩

/-- C7: encodeKey always returns exactly 8 bytes: the first 8 bytes of the
digest when it is at least 8 bytes long, and otherwise the digest
right-padded with zero bytes to length 8. -/
theorem encodeKey_spec (d : List Nat) :
    (encodeKey d).length = 8 ∧
    (8 ≤ d.length → encodeKey d = d.take 8) ∧
    (d.length < 8 → encodeKey d = d ++ List.replicate (8 - d.length) 0) := by
  refine ⟨?_, fun h => by simp [encodeKey, h], fun h => by simp [encodeKey, Nat.not_le.mpr h]⟩
  by_cases h : 8 ≤ d.length
  · simp [encodeKey, h]
  · simp [encodeKey, h]
    omega

theorem encodeKey_spec_witness :
    encodeKey [1, 2, 3, 4, 5, 6, 7, 8, 9] = [1, 2, 3, 4, 5, 6, 7, 8, 9].take 8 ∧
    encodeKey [1, 2, 3] = [1, 2, 3] ++ List.replicate (8 - [1, 2, 3].length) 0 :=
  ⟨(encodeKey_spec [1, 2, 3, 4, 5, 6, 7, 8, 9]).2.1 (by decide),
   (encodeKey_spec [1, 2, 3]).2.2 (by decide)⟩

/-- C8: the 8-byte key emitted for candidate password under md5 is the
first 8 bytes of its MD5 digest, 5f4dcc3b5aa765d6, and at wordlist
offset 0 the trailing 6 offset bytes of the record are all zero. -/
theorem md5_password_key :
    encodeKey (Md5.digest (pyEncode "password"))
      = [0x5f, 0x4d, 0xcc, 0x3b, 0x5a, 0xa7, 0x65, 0xd6] ∧
    encodeOffset 0 = .ok [0, 0, 0, 0, 0, 0] ∧
    (encodeKey (Md5.digest (pyEncode "password")) ++ [0, 0, 0, 0, 0, 0]).drop 8
      = List.replicate 6 0 := by
  refine ⟨by decide, by rfl, by decide⟩

/-- C3: mysql41 truncates the input to its first 64 bytes, drops the
leading 1-character scheme marker from the textual output of the
primitive and returns 20 raw digest bytes; the three postgres_md5
variants truncate to 64 bytes, drop the leading 3-character md5 prefix
and return 16 raw digest bytes — given the standard textual output
lengths of the primitives (41 and 35 characters). -/
theorem mysql41_postgres_postprocessing
    (mysql41 : List Nat → List Nat) (postgres_md5 : List Nat → String → List Nat)
    (h41 : ∀ x, (mysql41 x).length = 41)
    (hpg : ∀ x u, (postgres_md5 x u).length = 35) (data : List Nat) :
    (MySql41.digest mysql41 data = MySql41.digest mysql41 (data.take 64) ∧
     MySql41.digest mysql41 data = unhexlify ((mysql41 (data.take 64)).drop 1) ∧
     (MySql41.digest mysql41 data).length = 20) ∧
    (PostgresMd5_Root.digest postgres_md5 data
        = PostgresMd5_Root.digest postgres_md5 (data.take 64) ∧
     PostgresMd5_Root.digest postgres_md5 data
        = unhexlify ((postgres_md5 (data.take 64) "root").drop 3) ∧
     (PostgresMd5_Root.digest postgres_md5 data).length = 16) ∧
    (PostgresMd5_Postgres.digest postgres_md5 data
        = PostgresMd5_Postgres.digest postgres_md5 (data.take 64) ∧
     PostgresMd5_Postgres.digest postgres_md5 data
        = unhexlify ((postgres_md5 (data.take 64) "postgres").drop 3) ∧
     (PostgresMd5_Postgres.digest postgres_md5 data).length = 16) ∧
    (PostgresMd5_Admin.digest postgres_md5 data
        = PostgresMd5_Admin.digest postgres_md5 (data.take 64) ∧
     PostgresMd5_Admin.digest postgres_md5 data
        = unhexlify ((postgres_md5 (data.take 64) "admin").drop 3) ∧
     (PostgresMd5_Admin.digest postgres_md5 data).length = 16) := by
  refine ⟨⟨?_, rfl, ?_⟩, ⟨?_, rfl, ?_⟩, ⟨?_, rfl, ?_⟩, ⟨?_, rfl, ?_⟩⟩ <;>
    simp [MySql41.digest, PostgresMd5_Root.digest, PostgresMd5_Postgres.digest,
      PostgresMd5_Admin.digest, PostgresMd5.digest, List.take_take,
      unhexlify_length, h41, hpg]

theorem mysql41_postgres_postprocessing_witness :
    (MySql41.digest testPrims.mysql41 []).length = 20 ∧
    (PostgresMd5_Root.digest testPrims.postgres_md5 []).length = 16 :=
  ⟨(mysql41_postgres_postprocessing testPrims.mysql41 testPrims.postgres_md5
      (fun _ => by simp [testPrims]) (fun _ _ => by simp [testPrims]) []).1.2.2,
   (mysql41_postgres_postprocessing testPrims.mysql41 testPrims.postgres_md5
      (fun _ => by simp [testPrims]) (fun _ _ => by simp [testPrims]) []).2.1.2.2⟩

/-- C4: every username-salted variant truncates the input to its first 64
bytes and invokes its primitive with the fixed username baked into the
variant: SYS and SYSTEM for the two oracle10g variants, root, postgres
and admin for the three postgres_md5 variants, and administrator for
msdcc and msdcc2. -/
theorem salted_variants_fixed_user
    (oracle10 postgres_md5 msdcc msdcc2 : List Nat → String → List Nat)
    (data : List Nat) :
    (Oracle10_Sys.digest oracle10 data = unhexlify (oracle10 (data.take 64) "SYS") ∧
     Oracle10_Sys.digest oracle10 data = Oracle10_Sys.digest oracle10 (data.take 64)) ∧
    (Oracle10_System.digest oracle10 data = unhexlify (oracle10 (data.take 64) "SYSTEM") ∧
     Oracle10_System.digest oracle10 data = Oracle10_System.digest oracle10 (data.take 64)) ∧
    (PostgresMd5_Root.digest postgres_md5 data
        = unhexlify ((postgres_md5 (data.take 64) "root").drop 3) ∧
     PostgresMd5_Root.digest postgres_md5 data
        = PostgresMd5_Root.digest postgres_md5 (data.take 64)) ∧
    (PostgresMd5_Postgres.digest postgres_md5 data
        = unhexlify ((postgres_md5 (data.take 64) "postgres").drop 3) ∧
     PostgresMd5_Postgres.digest postgres_md5 data
        = PostgresMd5_Postgres.digest postgres_md5 (data.take 64)) ∧
    (PostgresMd5_Admin.digest postgres_md5 data
        = unhexlify ((postgres_md5 (data.take 64) "admin").drop 3) ∧
     PostgresMd5_Admin.digest postgres_md5 data
        = PostgresMd5_Admin.digest postgres_md5 (data.take 64)) ∧
    (Msdcc_Administrator.digest msdcc data
        = unhexlify (msdcc (data.take 64) "administrator") ∧
     Msdcc_Administrator.digest msdcc data
        = Msdcc_Administrator.digest msdcc (data.take 64)) ∧
    (Msdcc2_Administrator.digest msdcc2 data
        = unhexlify (msdcc2 (data.take 64) "administrator") ∧
     Msdcc2_Administrator.digest msdcc2 data
        = Msdcc2_Administrator.digest msdcc2 (data.take 64)) := by
  refine ⟨⟨rfl, ?_⟩, ⟨rfl, ?_⟩, ⟨rfl, ?_⟩, ⟨rfl, ?_⟩, ⟨rfl, ?_⟩, ⟨rfl, ?_⟩, ⟨rfl, ?_⟩⟩ <;>
    simp [Oracle10_Sys.digest, Oracle10_System.digest, Oracle10.digest,
      PostgresMd5_Root.digest, PostgresMd5_Postgres.digest, PostgresMd5_Admin.digest,
      PostgresMd5.digest, Msdcc_Administrator.digest, Msdcc2_Administrator.digest,
      List.take_take]

/-- The keys of the unconditionally registered algorithms. -/
def baseKeys : List String :=
  ["md4", "md5", "sha1", "sha2-224", "sha2-256", "sha2-384", "sha2-512",
   "sha3-224", "sha3-256", "sha3-384", "sha3-512"]

/-- The keys of the passlib-backed algorithms. -/
def passlibKeys : List String :=
  ["lm", "ntlm", "mysql323", "mysql41", "oracle10g-sys", "oracle10g-system",
   "msdcc-administrator", "msdcc2-administrator", "postgres_md5-admin",
   "postgres_md5-postgres", "postgres_md5-root"]

theorem availableKeys_eq (p : Primitives) (r pl w : Bool) :
    availableKeys p r pl w
      = baseKeys ++ (if r then ["ripemd160"] else [])
        ++ (if pl then passlibKeys else [])
        ++ (if w then ["whirlpool"] else []) := by
  cases r <;> cases pl <;> cases w <;> rfl

/-- C5: the available-key set is exactly determined by the capability
flags: the hashlib and SHA-3 keys are always present, the passlib family
keys are present iff the salted-hash capability is, ripemd160 iff the
optional digest family is, whirlpool iff the vendor module is; absent
capabilities just omit keys from the set. -/
theorem availableKeys_iff_capabilities (p : Primitives) (r pl w : Bool) (k : String) :
    k ∈ availableKeys p r pl w ↔
      (k ∈ baseKeys ∨ (r = true ∧ k = "ripemd160") ∨ (pl = true ∧ k ∈ passlibKeys)
        ∨ (w = true ∧ k = "whirlpool")) := by
  rw [availableKeys_eq]
  cases r <;> cases pl <;> cases w <;> simp

theorem find?_key_eq_none (l : List AlgEntry) (k : String)
    (h : k ∉ l.map (·.key)) : l.find? (fun e => e.key == k) = none := by
  induction l with
  | nil => rfl
  | cons e t ih =>
      simp only [List.map_cons, List.mem_cons] at h
      push_neg at h
      rw [List.find?_cons_of_neg _ (by simpa using fun hh => h.1 hh.symm)]
      exact ih h.2

theorem find?_key_mem (l : List AlgEntry) (k : String)
    (h : k ∈ l.map (·.key)) :
    ∃ e, l.find? (fun e => e.key == k) = some e ∧ e.key = k := by
  induction l with
  | nil => simp at h
  | cons e t ih =>
      by_cases hk : e.key = k
      · exact ⟨e, List.find?_cons_of_pos _ (by simpa using hk), hk⟩
      · simp only [List.map_cons, List.mem_cons] at h
        rcases h with h | h
        · exact absurd h.symm hk
        · obtain ⟨e2, he1, he2⟩ := ih h
          exact ⟨e2, by rw [List.find?_cons_of_neg _ (by simpa using hk)]; exact he1, he2⟩

/-- C6: looking up any key absent from the registry fails with
UnknownAlgorithm — in particular the key does-not-exist, which is absent
under every capability combination — while looking up any registered key
returns the descriptor carrying that key. -/
theorem lookup_unknown_and_present (p : Primitives) (r pl w : Bool) :
    (∀ k, k ∉ availableKeys p r pl w →
      lookup p r pl w k = .error .UnknownAlgorithm) ∧
    lookup p r pl w "does-not-exist" = .error .UnknownAlgorithm ∧
    ∀ k, k ∈ availableKeys p r pl w →
      ∃ e, lookup p r pl w k = .ok e ∧ e.key = k := by
  have habs : ∀ k, k ∉ availableKeys p r pl w →
      lookup p r pl w k = .error .UnknownAlgorithm := by
    intro k hk
    rw [lookup, find?_key_eq_none _ _ hk]
  refine ⟨habs, habs _ ?_, ?_⟩
  · rw [availableKeys_eq]
    cases r <;> cases pl <;> cases w <;> decide
  · intro k hk
    obtain ⟨e, he1, he2⟩ := find?_key_mem _ _ hk
    exact ⟨e, by rw [lookup, he1], he2⟩

theorem lookup_unknown_and_present_witness :
    lookup testPrims true true true "does-not-exist" = .error .UnknownAlgorithm ∧
    ∃ e, lookup testPrims true true true "md5" = .ok e ∧ e.key = "md5" :=
  ⟨(lookup_unknown_and_present testPrims true true true).1 "does-not-exist"
    (by rw [availableKeys_eq]; decide),
   (lookup_unknown_and_present testPrims true true true).2.2 "md5" (by decide)⟩

theorem mem_baseAlgs_digest_length (p : Primitives) (hp : PrimSpec p) (e : AlgEntry)
    (he : e ∈ baseAlgs p) (data : List Nat) :
    2 * (e.digest data).length = e.hex_length := by
  simp only [baseAlgs, List.mem_cons, List.not_mem_nil, or_false] at he
  rcases he with rfl | rfl | rfl | rfl | rfl | rfl | rfl | rfl | rfl | rfl | rfl <;>
    simp [Md4.digest, Md5.digest, Sha1.digest, Sha224.digest, Sha256.digest,
      Sha384.digest, Sha512.digest, Sha3_224.digest, Sha3_256.digest, Sha3_384.digest,
      Sha3_512.digest, hashlib_md5_length, hp.md4_len, hp.sha1_len, hp.sha224_len,
      hp.sha256_len, hp.sha384_len, hp.sha512_len, hp.sha3x224_len, hp.sha3x256_len,
      hp.sha3x384_len, hp.sha3x512_len]

theorem mem_passlibAlgs_digest_length (p : Primitives) (hp : PrimSpec p) (e : AlgEntry)
    (he : e ∈ passlibAlgs p) (data : List Nat) :
    2 * (e.digest data).length = e.hex_length := by
  simp only [passlibAlgs, List.mem_cons, List.not_mem_nil, or_false] at he
  rcases he with rfl | rfl | rfl | rfl | rfl | rfl | rfl | rfl | rfl | rfl | rfl <;>
    simp [Lm.digest, Ntlm.digest, MySql323.digest, MySql41.digest,
      Oracle10_Sys.digest, Oracle10_System.digest, Oracle10.digest,
      Msdcc_Administrator.digest, Msdcc2_Administrator.digest,
      PostgresMd5_Admin.digest, PostgresMd5_Postgres.digest, PostgresMd5_Root.digest,
      PostgresMd5.digest, unhexlify_length, hp.lmhash_len, hp.nthash_len,
      hp.mysql323_len, hp.mysql41_len, hp.oracle10_len, hp.postgres_md5_len,
      hp.msdcc_len, hp.msdcc2_len]

/-- C9: for every registered algorithm and every byte input, hexdigest is
the hexadecimal encoding of digest, its length is the declared hex_length
attribute, and digest returns exactly hex_length / 2 raw bytes — given
the standard output shapes of the external primitives. -/
theorem hexdigest_length_matches (p : Primitives) (hp : PrimSpec p) (r pl w : Bool)
    (e : AlgEntry) (he : e ∈ algorithms p r pl w) (data : List Nat) :
    BaseAlgorithm.hexdigest e.digest data = hexlify (e.digest data) ∧
    (BaseAlgorithm.hexdigest e.digest data).length = e.hex_length ∧
    2 * (e.digest data).length = e.hex_length := by
  have key : 2 * (e.digest data).length = e.hex_length := by
    simp only [algorithms, List.mem_append] at he
    rcases he with ((hb | hr) | hpl) | hw
    · exact mem_baseAlgs_digest_length p hp e hb data
    · cases r with
      | false => simp at hr
      | true =>
          simp only [if_true, List.mem_cons, List.not_mem_nil, or_false] at hr
          subst hr
          simp [ripemdEntry, Ripemd160.digest, hp.ripemd160_len]
    · cases pl with
      | false => simp at hpl
      | true => exact mem_passlibAlgs_digest_length p hp e (by simpa using hpl) data
    · cases w with
      | false => simp at hw
      | true =>
          simp only [if_true, List.mem_cons, List.not_mem_nil, or_false] at hw
          subst hw
          simp [whirlpoolEntry, Whirlpool.digest, hp.whirlpool_len]
  exact ⟨rfl, by rw [BaseAlgorithm.hexdigest, hexlify_length, key], key⟩

theorem hexdigest_length_matches_witness :
    (BaseAlgorithm.hexdigest Md5.digest []).length = 32 :=
  (hexdigest_length_matches testPrims testPrimsSpec true true true
    ⟨"md5", "Message Digest 5", 32, Md5.digest⟩
    (by simp [algorithms, baseAlgs]) []).2.1

end Lookup







